import Mathlib

/-!
Shallow embedding of the product-data-collection app (`src/app.py`).

The app is a Streamlit form that validates/compresses uploaded images,
uploads them to Supabase storage, assembles a product record, and persists
it in a `products` table; it also lists, searches, deletes and exports
records.  Remote effects (uuid generation, object storage, the database)
are modelled by explicit oracles and state passing; the Python dict/None
distinctions relevant to the claims are modelled with `Option` and a
three-way empty/filled payload type.
-/

/-- An uploaded file as seen by the app: the Streamlit `UploadedFile`
exposes `name`, `size` (bytes), `type` (declared MIME type); `mode` is the
PIL color mode of the decoded image (used by `compress_image`). -/
structure FileObj where
  name : String
  size : Nat
  type : String
  mode : String
deriving DecidableEq, Repr

/-- `allowed_types` from `validate_image` (app.py line 63). -/
def allowed_types : List String :=
  ["image/png", "image/jpeg", "image/jpg", "image/webp"]

/-- `validate_image(file)` (app.py lines 52-68): `None` passes, a file
larger than 5 MiB is rejected, a file whose declared type is not in
`allowed_types` is rejected, everything else passes. -/
def validate_image : Option FileObj → Bool
  | none => true
  | some file =>
    if file.size > 5 * 1024 * 1024 then false
    else if file.type ∈ allowed_types then true
    else false

/-- Which branch of `validate_image` fires: the function itself returns a
Bool, but the two rejection branches emit distinct warnings ("too large"
vs "invalid type"), so the reported rejection reason is observable. -/
inductive ValidationOutcome where
  | accepted
  | sizeExceeded
  | unsupportedType
deriving DecidableEq, Repr

/-- The rejection reason reported by `validate_image` for a present file,
following the source's branch order: the size check (line 58) runs before
the type check (line 64). -/
def validate_image_outcome (file : FileObj) : ValidationOutcome :=
  if file.size > 5 * 1024 * 1024 then .sizeExceeded
  else if file.type ∈ allowed_types then .accepted
  else .unsupportedType

/-- Python `s.split(".")` at character level: splits a char list on `.`,
always producing at least one (possibly empty) part. -/
def splitOnDot : List Char → List (List Char)
  | [] => [[]]
  | c :: rest =>
    let r := splitOnDot rest
    if c = '.' then [] :: r
    else
      match r with
      | [] => [[c]]
      | h :: t => (c :: h) :: t

/-- Joins parts back with `.` separators (Python `".".join(parts)`). -/
def joinDots : List (List Char) → List Char
  | [] => []
  | [x] => x
  | x :: y :: rest => x ++ '.' :: joinDots (y :: rest)

/-- Python `s.rsplit(".", 1)[0]`: everything before the last dot, or the
whole string when there is no dot (used for the compressed file name,
app.py line 89). -/
def rsplitBase (s : String) : String :=
  let parts := splitOnDot s.data
  if parts.length ≤ 1 then s else (joinDots parts.dropLast).asString

/-- Python `s.split(".")[-1]`: the part after the last dot (used for the
storage file extension, app.py line 116). -/
def lastSplitDot (s : String) : String :=
  ((splitOnDot s.data).getLastD []).asString

/-- The file-like object produced by the JPEG re-encode branch of
`compress_image` (app.py lines 75-93): a fresh buffer whose `name` is the
original base name with a `.jpg` extension and whose `type` is
`image/jpeg`, written by `img.save(..., format="JPEG", quality=85,
optimize=True)` after an RGBA/P → RGB conversion.  The encoded byte size
is whatever the JPEG encoder produces; the source never compares it to any
threshold, so it does not appear in the model. -/
structure JpegOutput where
  name : String
  type : String
  format : String
  quality : Nat
  saved_mode : String
  optimize : Bool
deriving DecidableEq, Repr

/-- Result of `compress_image` for a present file: either the original
file object returned unchanged, or the freshly encoded JPEG buffer. -/
inductive CompressResult where
  | unchanged (f : FileObj)
  | reencoded (out : JpegOutput)
deriving DecidableEq, Repr

/-- The color modes Pillow's JPEG plugin can write (its `RAWMODE` table):
`img.save(..., format="JPEG")` raises `OSError("cannot write mode X as
JPEG")` for every other mode. -/
def jpeg_writable_modes : List String :=
  ["1", "L", "RGB", "RGBX", "CMYK", "YCbCr"]

/-- `compress_image(file, max_size_mb=1)` (app.py lines 70-96), always
called with the default `max_size_mb = 1`: a `None` file or a file of at
most 1 MiB is returned unchanged; otherwise the image is re-encoded as
JPEG at quality 85 with `optimize=True`, converting an `RGBA` or `P`
color mode to `RGB` first.  The body runs under `try/except` and on any
PIL failure returns the original file (lines 94-96); for a decoded image
(`FileObj.mode` presumes the upload decodes) the failure that can fire is
the JPEG encoder rejecting a color mode outside its `RAWMODE` table
(e.g. `LA`), which the conversion step only fixes for `RGBA` and `P`. -/
def compress_image : Option FileObj → Option CompressResult
  | none => none
  | some file =>
    if file.size ≤ 1 * 1024 * 1024 then some (.unchanged file)
    else
      let mode := if file.mode = "RGBA" ∨ file.mode = "P" then "RGB" else file.mode
      if mode ∈ jpeg_writable_modes then
        some (.reencoded
          { name := rsplitBase file.name ++ ".jpg"
            type := "image/jpeg"
            format := "JPEG"
            quality := 85
            saved_mode := mode
            optimize := true })
      else
        some (.unchanged file)

/-- Name of the file object after `compress_image` (either branch). -/
def compressedName : CompressResult → String
  | .unchanged f => f.name
  | .reencoded o => o.name

/-- Declared MIME type of the file object after `compress_image`. -/
def compressedType : CompressResult → String
  | .unchanged f => f.type
  | .reencoded o => o.type

/-- The dict returned by `upload_image_to_supabase` on success (app.py
lines 137-141): original-or-compressed filename, unique storage path, and
the public URL resolved for that path. -/
structure StoredAsset where
  filename : String
  path : String
  url : String
deriving DecidableEq, Repr

/-- Oracle for the remote effects of one save action: the successive
values of `uuid.uuid4()`, whether the n-th storage upload raises (and with
which exception text), and the public-URL resolver of the bucket. -/
structure Remote where
  uuidAt : Nat → String
  storageFaultAt : Nat → Option String
  publicUrl : String → String

/-- `upload_image_to_supabase(file, folder)` (app.py lines 102-146) with
`n` counting the storage calls made so far in this save action: `None`
and validation failures return `None` without touching the remote;
otherwise the (possibly compressed) file is stored under
`folder/uuid4().ext` and a descriptor is returned, or `None` when the
storage layer raises.  Returns the result and the updated call counter. -/
def upload_image_to_supabase (r : Remote) (n : Nat) (file : Option FileObj)
    (folder : String) : Option StoredAsset × Nat :=
  match file with
  | none => (none, n)
  | some f =>
    if validate_image (some f) = false then (none, n)
    else
      match compress_image (some f) with
      | none => (none, n)
      | some cr =>
        let file_ext := lastSplitDot (compressedName cr)
        let unique_name := folder ++ "/" ++ r.uuidAt n ++ "." ++ file_ext
        match r.storageFaultAt n with
        | some _e => (none, n + 1)
        | none =>
          (some { filename := compressedName cr
                  path := unique_name
                  url := r.publicUrl unique_name }, n + 1)

/-- One entry of `variations_data` as collected by the form (app.py
lines 521-527), before its image is uploaded. -/
structure VariationInput where
  name : String
  price : ℚ
  sku : String
  stock : Nat
  image : Option FileObj
deriving DecidableEq, Repr

/-- One entry of `variations_data` after step 3 of the save handler
(app.py lines 635-638) replaced its raw image with the upload result. -/
structure Variation where
  name : String
  price : ℚ
  sku : String
  stock : Nat
  image : Option StoredAsset
deriving DecidableEq, Repr

/-- The `edition` sub-dict of `deep_custom_data` (app.py lines 579-587),
after its image was replaced by the upload result (lines 644-648). -/
structure Edition where
  heading : String
  subtitle : String
  short_description : String
  grains : String
  grade : String
  grain_description : String
  image : Option StoredAsset
deriving DecidableEq, Repr

/-- The `laser_engraving` sub-dict of `deep_custom_data` (app.py
lines 589-594), after its image was replaced by the upload result
(lines 649-653). -/
structure LaserEngraving where
  enabled : Bool
  price : ℚ
  max_chars : Nat
  image : Option StoredAsset
deriving DecidableEq, Repr

/-- The populated `deep_custom_data` dict (app.py lines 577-595). -/
structure DeepCustomization where
  enabled : Bool
  edition : Edition
  handle_shapes : List String
  laser_engraving : LaserEngraving
deriving DecidableEq, Repr

/-- The value of the Python variable `deep_custom_data`: `{}` (line 532,
kept when the type is not a bat or the checkbox is off — falsy in Python)
or the populated dict.  Distinct from SQL/JSON null, which is `none` at
the record field. -/
inductive DeepCustomDict where
  | empty
  | filled (d : DeepCustomization)
deriving DecidableEq, Repr

/-- The `product_data` metadata sub-dict (app.py lines 673-676). -/
structure MetaBlob where
  timestamp : String
  complete_data : String
deriving DecidableEq, Repr

/-- The record inserted into the `products` table (the `product_data`
dict literal, app.py lines 657-677).  `none` models Python `None` /
SQL null. -/
structure ProductRecord where
  product_name : String
  product_type : String
  sku : String
  regular_price : ℚ
  sale_price : Option ℚ
  stock_status : String
  stock_quantity : Nat
  weight : Option ℚ
  category : String
  short_description : String
  full_description : String
  main_image : Option StoredAsset
  gallery_images : List StoredAsset
  variations : Option (List Variation)
  deep_customization : Option DeepCustomDict
  product_data : MetaBlob
deriving DecidableEq, Repr

/-- Raw widget values of the deep-customization section (app.py
lines 536-574).  The laser widgets only exist when the laser checkbox is
on; the `*_input` fields hold the would-be widget values and the gating
(`... if enable_laser else 0 / None`, lines 571-574) is applied in
`process_deep_custom`. -/
structure DeepCustomInput where
  edition_heading : String
  edition_subtitle : String
  short_edition_desc : String
  grains : String
  grade : String
  grain_description : String
  edition_image : Option FileObj
  handle_shapes : List String
  enable_laser : Bool
  laser_price_input : ℚ
  laser_max_chars_input : Nat
  laser_image_input : Option FileObj
deriving DecidableEq, Repr

/-- All form state read by the save handler (app.py pages, lines 446-596).
`variations_data` is only populated by the UI when the selected type is
"Variable Product", and the deep-customization section only when it is
"Cricket Bat (Deep Customization)"; the handler applies those guards
itself.  `now_iso` is `datetime.now().isoformat()` at save time. -/
structure SaveInput where
  product_name : String
  product_type : String
  sku : String
  regular_price : ℚ
  sale_price : ℚ
  stock_status : String
  stock_quantity : Nat
  weight : ℚ
  category : String
  short_description : String
  full_description : String
  main_image : Option FileObj
  gallery_images : List FileObj
  variations_data : List VariationInput
  enable_deep_custom : Bool
  deep_custom_input : DeepCustomInput
  now_iso : String
deriving DecidableEq, Repr

/-- The `product_data` dict literal of the save handler (app.py
lines 657-677): Python truthiness of a float is `≠ 0`, so
`float(sale_price) if sale_price else None` stores zero as `None`;
`variations` / `deep_customization` are the collected payloads when the
discriminant selects them and `None` otherwise. -/
def mk_product_data (inp : SaveInput) (main_image_data : Option StoredAsset)
    (gallery_data : List StoredAsset) (variations_data : List Variation)
    (deep_custom_data : DeepCustomDict) : ProductRecord :=
  { product_name := inp.product_name
    product_type := inp.product_type
    sku := inp.sku
    regular_price := inp.regular_price
    sale_price := if inp.sale_price = 0 then none else some inp.sale_price
    stock_status := inp.stock_status
    stock_quantity := inp.stock_quantity
    weight := if inp.weight = 0 then none else some inp.weight
    category := inp.category
    short_description := inp.short_description
    full_description := inp.full_description
    main_image := main_image_data
    gallery_images := gallery_data
    variations :=
      if inp.product_type = "Variable Product" then some variations_data else none
    deep_customization :=
      if inp.product_type = "Cricket Bat (Deep Customization)" then some deep_custom_data
      else none
    product_data := { timestamp := inp.now_iso
                      complete_data := "Full product structure here" } }

/-- A row of the remote `products` table: the server-assigned id and
creation timestamp (schema defaults `uuid_generate_v4()` / `NOW()`, see
the setup SQL in app.py lines 352-355) together with the inserted
record. -/
structure DbRow where
  id : String
  created_at : Nat
  record : ProductRecord
deriving DecidableEq, Repr

/-- The ordering used by `.order("created_at", desc=True)`: row `a` comes
before row `b` when its creation time is at least `b`'s. -/
def created_desc (a b : DbRow) : Prop :=
  b.created_at ≤ a.created_at

instance : DecidableRel created_desc :=
  fun a b => Nat.decLe b.created_at a.created_at

instance : IsTotal DbRow created_desc :=
  ⟨fun a b => (Nat.le_total b.created_at a.created_at).elim Or.inl Or.inr⟩

instance : IsTrans DbRow created_desc :=
  ⟨fun _ _ _ hab hbc => Nat.le_trans hbc hab⟩

/-- `save_product_to_supabase(product_data)` (app.py lines 148-159): the
insert appends a row with the server-assigned id and timestamp and the
function returns `result.data[0]`; when the remote raises with text `e`
the function shows `st.error` with the first 200 characters of `e` and
returns `None`.  Result: (table after, returned row, surfaced error). -/
def save_product_to_supabase (fault : Option String) (table : List DbRow)
    (newId : String) (now : Nat) (p : ProductRecord) :
    List DbRow × Option DbRow × Option String :=
  match fault with
  | some e => (table, none, some ("Error saving product: " ++ e.take 200))
  | none =>
    let row : DbRow := { id := newId, created_at := now, record := p }
    (table ++ [row], some row, none)

/-- `get_all_products_from_supabase()` (app.py lines 161-171): the remote
query `select("*").order("created_at", desc=True)` is modelled by its SQL
semantics, a sort of the table rows by `created_at` descending; on a
remote fault the function shows the first 100 characters of the exception
and returns `[]`.  Result: (returned rows, surfaced error). -/
def get_all_products_from_supabase (fault : Option String) (table : List DbRow) :
    List DbRow × Option String :=
  match fault with
  | some e => ([], some ("Error fetching products: " ++ e.take 100))
  | none => (List.insertionSort created_desc table, none)

/-- `delete_product_from_supabase(product_id)` (app.py lines 173-184):
`delete().eq("id", product_id)` removes the rows whose id matches (zero
or more — the row count is never inspected) and the function returns
`True`; on a remote fault it shows the first 100 characters of the
exception and returns `False`.  Result: (table after, returned boolean,
surfaced error). -/
def delete_product_from_supabase (fault : Option String) (table : List DbRow)
    (product_id : String) : List DbRow × Bool × Option String :=
  match fault with
  | some e => (table, false, some ("Error deleting product: " ++ e.take 100))
  | none => (table.filter (fun row => !(row.id == product_id)), true, none)

/-- Bool test for `needle` occurring as a contiguous sub-list of `hay`. -/
def containsSub (needle : List Char) : List Char → Bool
  | [] => needle.isEmpty
  | c :: rest => needle.isPrefixOf (c :: rest) || containsSub needle rest

/-- Postgres `ilike '%q%'`: case-insensitive substring match. -/
def ilikeContains (hay q : String) : Bool :=
  containsSub q.toLower.data hay.toLower.data

/-- `search_products(query)` (app.py lines 186-198): the remote filter
`or_(product_name.ilike.%q%, sku.ilike.%q%)` is modelled by its SQL
semantics; on a remote fault the function shows the first 100 characters
of the exception and returns `[]`. -/
def search_products (fault : Option String) (table : List DbRow) (q : String) :
    List DbRow × Option String :=
  match fault with
  | some e => ([], some ("Error searching products: " ++ e.take 100))
  | none =>
    (table.filter (fun row =>
      ilikeContains row.record.product_name q || ilikeContains row.record.sku q), none)

/-- Step 2 of the save handler (app.py lines 622-628): uploads the
gallery images in order, appending only the successful descriptors. -/
def upload_gallery (r : Remote) : List FileObj → Nat → List StoredAsset × Nat
  | [], n => ([], n)
  | img :: rest, n =>
    let (res, n1) := upload_image_to_supabase r n (some img) "products/gallery"
    let (tail, n2) := upload_gallery r rest n1
    match res with
    | some d => (d :: tail, n2)
    | none => (tail, n2)

/-- Step 3 of the save handler (app.py lines 635-638): replaces each
variation's raw image (when present) by its upload result. -/
def process_variations (r : Remote) :
    List VariationInput → Nat → List Variation × Nat
  | [], n => ([], n)
  | v :: vs, n =>
    let (img, n1) :=
      match v.image with
      | some f => upload_image_to_supabase r n (some f) "products/variations"
      | none => (none, n)
    let (rest, n2) := process_variations r vs n1
    ({ name := v.name, price := v.price, sku := v.sku, stock := v.stock,
       image := img } :: rest, n2)

/-- The deep-customization dict build (app.py lines 570-595) followed by
step 4 of the save handler (lines 643-653): the laser widgets are gated
by the laser checkbox, and the edition / laser images (when present) are
replaced by their upload results. -/
def process_deep_custom (r : Remote) (n : Nat) (i : DeepCustomInput) :
    DeepCustomization × Nat :=
  let laser_price := if i.enable_laser then i.laser_price_input else 0
  let laser_max_chars := if i.enable_laser then i.laser_max_chars_input else 0
  let laser_image := if i.enable_laser then i.laser_image_input else none
  let (edition_image, n1) :=
    match i.edition_image with
    | some f => upload_image_to_supabase r n (some f) "products/edition"
    | none => (none, n)
  let (laser_image2, n2) :=
    match laser_image with
    | some f => upload_image_to_supabase r n1 (some f) "products/laser"
    | none => (none, n1)
  ({ enabled := true
     edition := { heading := i.edition_heading
                  subtitle := i.edition_subtitle
                  short_description := i.short_edition_desc
                  grains := i.grains
                  grade := i.grade
                  grain_description := i.grain_description
                  image := edition_image }
     handle_shapes := i.handle_shapes
     laser_engraving := { enabled := i.enable_laser
                          price := laser_price
                          max_chars := laser_max_chars
                          image := laser_image2 } }, n2)

/-- Outcome of one press of the "Save to Database" button. -/
inductive SaveOutcome where
  | missingRequired
  | notConnected
  | saved (record : ProductRecord) (table : List DbRow)
  | saveFailed (record : ProductRecord) (errMsg : String) (table : List DbRow)
deriving DecidableEq, Repr

/-- The "Save to Database" button handler (app.py lines 603-713): blocks
on a missing name or a zero price, then uploads the main image, the
gallery images, the variation images (only for a "Variable Product") and
the deep-customization images (only for a bat with the checkbox on),
assembles `product_data` and inserts it.  `variations_data` is `[]` and
`deep_custom_data` is `{}` unless the corresponding UI branch ran, which
the discriminant guards reproduce. -/
def save_handler (r : Remote) (dbFault : Option String) (connected : Bool)
    (table : List DbRow) (newId : String) (now : Nat) (inp : SaveInput) :
    SaveOutcome :=
  if inp.product_name = "" ∨ inp.regular_price = 0 then .missingRequired
  else if connected = false then .notConnected
  else
    let mainUp := upload_image_to_supabase r 0 inp.main_image "products/main"
    let galleryUp := upload_gallery r inp.gallery_images mainUp.2
    let varsUp :=
      if inp.product_type = "Variable Product" then
        process_variations r inp.variations_data galleryUp.2
      else ([], galleryUp.2)
    let deepUp :=
      if inp.product_type = "Cricket Bat (Deep Customization)" ∧ inp.enable_deep_custom
      then
        let d := process_deep_custom r varsUp.2 inp.deep_custom_input
        (DeepCustomDict.filled d.1, d.2)
      else (DeepCustomDict.empty, varsUp.2)
    let pd := mk_product_data inp mainUp.1 galleryUp.1 varsUp.1 deepUp.1
    let saveRes := save_product_to_supabase dbFault table newId now pd
    match saveRes.2.1 with
    | some _row => .saved pd saveRes.1
    | none => .saveFailed pd (saveRes.2.2.getD "") saveRes.1

/-- The value of step 1 of the save handler (`main_image_data` and the
storage-call counter after it): named here so theorems can refer to the
handler's intermediate results. -/
def main_upload_result (r : Remote) (inp : SaveInput) : Option StoredAsset × Nat :=
  upload_image_to_supabase r 0 inp.main_image "products/main"

/-- The value of step 2 of the save handler (`gallery_data` and the
counter after it). -/
def gallery_upload_result (r : Remote) (inp : SaveInput) : List StoredAsset × Nat :=
  upload_gallery r inp.gallery_images (main_upload_result r inp).2

/-- The value of step 3 of the save handler (the processed
`variations_data` and the counter after it). -/
def variations_upload_result (r : Remote) (inp : SaveInput) : List Variation × Nat :=
  if inp.product_type = "Variable Product" then
    process_variations r inp.variations_data (gallery_upload_result r inp).2
  else ([], (gallery_upload_result r inp).2)

/-- The value of step 4 of the save handler (the `deep_custom_data`
payload and the counter after it). -/
def deep_upload_result (r : Remote) (inp : SaveInput) : DeepCustomDict × Nat :=
  if inp.product_type = "Cricket Bat (Deep Customization)" ∧ inp.enable_deep_custom
  then
    let d := process_deep_custom r (variations_upload_result r inp).2 inp.deep_custom_input
    (DeepCustomDict.filled d.1, d.2)
  else (DeepCustomDict.empty, (variations_upload_result r inp).2)

/-- Python truthiness of the stored `deep_customization` value as read
back in the export page (app.py lines 920-921): SQL null (Python `None`)
and the empty dict are both falsy. -/
def deepTruthy : Option DeepCustomDict → Bool
  | some (.filled _) => true
  | some .empty => false
  | none => false

/-- `bat_products` (app.py line 916): the records whose type is the bat
discriminant. -/
def bat_products (products : List ProductRecord) : List ProductRecord :=
  products.filter (fun p => p.product_type == "Cricket Bat (Deep Customization)")

/-- One row of the "Bat Customization" sheet (app.py lines 924-932). -/
structure BatRow where
  product_name : String
  sku : String
  edition_heading : String
  grains : String
  grade : String
  laser_engraving : String
  laser_price : ℚ
deriving DecidableEq, Repr

/-- The row built for one bat product with a populated payload (app.py
lines 922-932): the laser column renders the enabled flag as Yes/No. -/
def mkBatRow (p : ProductRecord) (d : DeepCustomization) : BatRow :=
  { product_name := p.product_name
    sku := p.sku
    edition_heading := d.edition.heading
    grains := d.edition.grains
    grade := d.edition.grade
    laser_engraving := if d.laser_engraving.enabled then "Yes" else "No"
    laser_price := d.laser_engraving.price }

/-- `bat_data` (app.py lines 918-932): for each bat product whose stored
`deep_customization` is truthy, one row. -/
def bat_data (products : List ProductRecord) : List BatRow :=
  (bat_products products).filterMap (fun p =>
    match p.deep_customization with
    | some (.filled d) => some (mkBatRow p d)
    | _ => none)

/-- The sheet names written by the Excel export (app.py lines 912-936):
always "Products"; "Bat Customization" is written only when `bat_products`
is non-empty and `bat_data` is non-empty. -/
def excel_sheet_names (products : List ProductRecord) : List String :=
  ["Products"] ++
    (if bat_products products = [] then []
     else if bat_data products = [] then []
     else ["Bat Customization"])

/-- The rows the spec's wording prescribes for the second sheet: one row
per record whose discriminant is the bat type and whose customization
payload is non-empty, with the listed columns. -/
def bat_rows_spec (products : List ProductRecord) : List BatRow :=
  products.filterMap (fun p =>
    if p.product_type = "Cricket Bat (Deep Customization)" then
      match p.deep_customization with
      | some (.filled d) => some (mkBatRow p d)
      | _ => none
    else none)

example : validate_image (some ⟨"a.png", 100, "image/png", "RGB"⟩) = true := by decide
example : validate_image (some ⟨"a.png", 6 * 1024 * 1024, "image/png", "RGB"⟩) = false := by
  decide
example : validate_image (some ⟨"a.gif", 100, "image/gif", "RGB"⟩) = false := by decide
example : rsplitBase "a.b.png" = "a.b" := by decide
example : lastSplitDot "a.b.png" = "png" := by decide

/-! ### Concrete sample data used by witnesses and counterexamples -/

/-- A deep-customization section with all widgets left at their empty
defaults. -/
def emptyDeepCustomInput : DeepCustomInput :=
  { edition_heading := "", edition_subtitle := "", short_edition_desc := ""
    grains := "", grade := "", grain_description := "", edition_image := none
    handle_shapes := [], enable_laser := false, laser_price_input := 0
    laser_max_chars_input := 0, laser_image_input := none }

/-- A plain simple product entered in the form, with no images. -/
def simpleInput : SaveInput :=
  { product_name := "Reserve Bat", product_type := "Simple Product"
    sku := "BAT-001", regular_price := 4999, sale_price := 0
    stock_status := "In Stock", stock_quantity := 3, weight := 0
    category := "Bats", short_description := "", full_description := ""
    main_image := none, gallery_images := [], variations_data := []
    enable_deep_custom := false, deep_custom_input := emptyDeepCustomInput
    now_iso := "2026-01-01T00:00:00" }

/-- The record the builder assembles for `simpleInput`. -/
def recSimple : ProductRecord := mk_product_data simpleInput none [] [] .empty

/-- `recSimple` as stored in the `products` table. -/
def rowSimple : DbRow := { id := "row-1", created_at := 10, record := recSimple }

/-- A 1000-byte upload declaring the nonstandard JPEG MIME alias. -/
def jpgAliasFile : FileObj :=
  { name := "photo.jpg", size := 1000, type := "image/jpg", mode := "RGB" }

/-- A 6 MiB PNG upload (over the 5 MiB limit). -/
def png6 : FileObj :=
  { name := "big.png", size := 6 * 1024 * 1024, type := "image/png", mode := "RGBA" }

/-- A 6 MiB upload of a disallowed type. -/
def bigBadFile : FileObj :=
  { name := "big.gif", size := 6 * 1024 * 1024, type := "image/gif", mode := "P" }

/-- A valid small JPEG upload. -/
def goodJpeg : FileObj :=
  { name := "ok.jpg", size := 1000, type := "image/jpeg", mode := "RGB" }

/-- A 2 MiB PNG of an allowed type whose decoded color mode is `LA`
(grayscale with alpha) — a mode the RGBA/P conversion does not touch and
the JPEG encoder cannot write. -/
def laFile : FileObj :=
  { name := "art.png", size := 2 * 1024 * 1024, type := "image/png", mode := "LA" }

/-- A remote oracle on which every storage upload succeeds. -/
def r0 : Remote :=
  { uuidAt := fun n => "uuid-" ++ toString n
    storageFaultAt := fun _ => none
    publicUrl := fun p => "https://cdn.example/" ++ p }

/-- A simple product submitted with a 6 MiB PNG main image and a gallery
of one valid image followed by one oversize disallowed-type image. -/
def uploadInput : SaveInput :=
  { product_name := "Reserve Bat", product_type := "Simple Product"
    sku := "BAT-001", regular_price := 4999, sale_price := 0
    stock_status := "In Stock", stock_quantity := 3, weight := 0
    category := "Bats", short_description := "", full_description := ""
    main_image := some png6, gallery_images := [goodJpeg, bigBadFile]
    variations_data := []
    enable_deep_custom := false, deep_custom_input := emptyDeepCustomInput
    now_iso := "2026-01-01T00:00:00" }

/-- A bat product submitted with the deep-customization checkbox left
unchecked, so `deep_custom_data` stays `{}`. -/
def batEmptyInput : SaveInput :=
  { product_name := "Plain Bat", product_type := "Cricket Bat (Deep Customization)"
    sku := "B-2", regular_price := 100, sale_price := 0
    stock_status := "In Stock", stock_quantity := 0, weight := 0
    category := "", short_description := "", full_description := ""
    main_image := none, gallery_images := [], variations_data := []
    enable_deep_custom := false, deep_custom_input := emptyDeepCustomInput
    now_iso := "t" }

/-- The record the builder assembles for `batEmptyInput`: bat discriminant
with an empty (but non-null) customization payload. -/
def batEmptyRecord : ProductRecord := mk_product_data batEmptyInput none [] [] .empty

/-! ### Claim theorems -/

/-- C1: For every record assembled by the builder, the `variations`
payload is non-null exactly when the discriminant is "Variable Product"
and the `deep_customization` payload is non-null exactly when it is
"Cricket Bat (Deep Customization)"; at most one of the two is non-null,
and the side not selected by the discriminant is null (`none`), never an
empty structure. -/
theorem payloads_mutually_exclusive (inp : SaveInput) (m : Option StoredAsset)
    (g : List StoredAsset) (v : List Variation) (d : DeepCustomDict) :
    ((mk_product_data inp m g v d).variations = none ∨
      (mk_product_data inp m g v d).deep_customization = none) ∧
    ((mk_product_data inp m g v d).variations.isSome = true ↔
      inp.product_type = "Variable Product") ∧
    ((mk_product_data inp m g v d).deep_customization.isSome = true ↔
      inp.product_type = "Cricket Bat (Deep Customization)") := by
  refine ⟨?_, ?_, ?_⟩ <;> simp only [mk_product_data] <;>
    split_ifs <;> simp_all

/-- C2 counterexample: a small file whose declared MIME type is the
nonstandard alias `image/jpg` — outside the claim's allowed set
{image/png, image/jpeg, image/webp} — is nevertheless accepted by
`validate_image`. -/
theorem jpg_alias_accepted_counterexample :
    (["image/png", "image/jpeg", "image/webp"].contains jpgAliasFile.type) = false ∧
    jpgAliasFile.size ≤ 5 * 1024 * 1024 ∧
    validate_image (some jpgAliasFile) = true := by decide

/-- C2 amended: validation accepts a present file exactly when its size
is at most 5 MiB and its declared MIME type is one of image/png,
image/jpeg, image/jpg or image/webp; oversize files are rejected
regardless of type and files of any other declared type are rejected
regardless of size. -/
theorem validate_image_characterization (f : FileObj) :
    validate_image (some f) =
      decide (f.size ≤ 5 * 1024 * 1024 ∧
        f.type ∈ ["image/png", "image/jpeg", "image/jpg", "image/webp"]) := by
  simp only [validate_image, allowed_types]
  split_ifs with h1 h2
  · exact (decide_eq_false (fun h => absurd h.1 (Nat.not_le.mpr h1))).symm
  · exact (decide_eq_true ⟨Nat.not_lt.mp h1, h2⟩).symm
  · exact (decide_eq_false (fun h => absurd h.2 h2)).symm

/-- C3 counterexample: a 2 MiB PNG — an allowed type over 1 MiB — whose
decoded color mode is `LA` is not re-encoded: the RGBA/P conversion does
not touch `LA`, the JPEG encoder rejects it, and the source's exception
fallback (app.py lines 94-96) returns the original file unchanged. -/
theorem la_mode_not_reencoded_counterexample :
    (allowed_types.contains laFile.type) = true ∧
    1 * 1024 * 1024 < laFile.size ∧ laFile.size ≤ 5 * 1024 * 1024 ∧
    compress_image (some laFile) = some (CompressResult.unchanged laFile) := by
  decide

/-- C3 amended: `compress_image` returns a file of at most 1 MiB
unchanged; a larger file is re-encoded as JPEG at fixed quality 85 —
first turning an RGBA or palette (P) color mode into plain RGB —
provided the converted mode is one the JPEG encoder can write
(1, L, RGB, RGBX, CMYK or YCbCr); when the encoder rejects the mode, the
exception fallback returns the original file unchanged.  In the
re-encode case the encoded byte size does not influence the result at
all (no further size check). -/
theorem compress_image_policy (f : FileObj) :
    compress_image (some f) =
      some (if f.size ≤ 1 * 1024 * 1024 then CompressResult.unchanged f
        else if (if f.mode = "RGBA" ∨ f.mode = "P" then "RGB" else f.mode) ∈
            ["1", "L", "RGB", "RGBX", "CMYK", "YCbCr"] then
          CompressResult.reencoded
            { name := rsplitBase f.name ++ ".jpg"
              type := "image/jpeg"
              format := "JPEG"
              quality := 85
              saved_mode := if f.mode = "RGBA" ∨ f.mode = "P" then "RGB" else f.mode
              optimize := true }
        else CompressResult.unchanged f) := by
  simp only [compress_image, jpeg_writable_modes]
  split_ifs <;> rfl

/-- C5: a successful `listAll` returns a permutation of the stored rows
(hence exactly N rows for N records, and `[]` on an empty collection),
ordered by creation time descending. -/
theorem list_all_ordered (table : List DbRow) :
    (get_all_products_from_supabase none []).1 = [] ∧
    (get_all_products_from_supabase none table).1.Perm table ∧
    (get_all_products_from_supabase none table).1.length = table.length ∧
    List.Pairwise (fun a b : DbRow => b.created_at ≤ a.created_at)
      (get_all_products_from_supabase none table).1 := by
  refine ⟨rfl, ?_, ?_, ?_⟩
  · simpa [get_all_products_from_supabase] using List.perm_insertionSort created_desc table
  · simp only [get_all_products_from_supabase]
    exact (List.perm_insertionSort created_desc table).length_eq
  · simpa [get_all_products_from_supabase] using
      List.sorted_insertionSort created_desc table

/-- C6: a fault-free `delete` reports success (`True`) for every table
and id — whether or not any row matched — and on an id matching no row it
leaves the table unchanged, reports success and surfaces no error. -/
theorem delete_reports_success (table : List DbRow) (pid : String) :
    (delete_product_from_supabase none table pid).2.1 = true ∧
    ((table.all fun row => !(row.id == pid)) = true →
      delete_product_from_supabase none table pid = (table, true, none)) := by
  refine ⟨rfl, fun h => ?_⟩
  simp only [delete_product_from_supabase]
  rw [List.filter_eq_self.mpr]
  intro row hrow
  exact List.all_eq_true.mp h row hrow

/-- C6 witness: deleting an id that matches nothing in a one-row table
still reports success and leaves the row in place. -/
theorem delete_reports_success_witness :
    delete_product_from_supabase none [rowSimple] "missing-id" =
      ([rowSimple], true, none) :=
  (delete_reports_success [rowSimple] "missing-id").2 (by decide)

/-- C7: when the remote raises with text `e`, each persistence operation
surfaces the failure immediately — no retry, a single attempt — carrying
a truncated human-readable message: the first 200 characters of `e` for
`create` and the first 100 for `listAll`, `delete` and `search`, each
within the stated 100-to-200-character range. -/
theorem persistence_failures_truncated (e : String) (table : List DbRow)
    (p : ProductRecord) (pid q newId : String) (now : Nat) :
    (save_product_to_supabase (some e) table newId now p).2.2 =
      some ("Error saving product: " ++ e.take 200) ∧
    get_all_products_from_supabase (some e) table =
      ([], some ("Error fetching products: " ++ e.take 100)) ∧
    delete_product_from_supabase (some e) table pid =
      (table, false, some ("Error deleting product: " ++ e.take 100)) ∧
    search_products (some e) table q =
      ([], some ("Error searching products: " ++ e.take 100)) :=
  ⟨rfl, rfl, rfl, rfl⟩

/-- C8: the builder stores a zero sale price or weight as `none` (absent),
never as `some 0`, and stores any non-zero value unchanged, so "not
provided" stays distinguishable from an explicit zero. -/
theorem optional_zero_stored_absent (inp : SaveInput) (m : Option StoredAsset)
    (g : List StoredAsset) (v : List Variation) (d : DeepCustomDict) :
    (((mk_product_data inp m g v d).sale_price = none) ↔ inp.sale_price = 0) ∧
    ((mk_product_data inp m g v d).sale_price.getD inp.sale_price = inp.sale_price) ∧
    (((mk_product_data inp m g v d).weight = none) ↔ inp.weight = 0) ∧
    ((mk_product_data inp m g v d).weight.getD inp.weight = inp.weight) := by
  refine ⟨?_, ?_, ?_, ?_⟩ <;> simp only [mk_product_data] <;> split_ifs <;> simp_all

/-- C10: the size check runs before the type check, so a file that is
both over 5 MiB and of a disallowed declared type is reported as a size
violation, never as a type violation. -/
theorem size_check_precedes_type_check (f : FileObj)
    (hsize : f.size > 5 * 1024 * 1024)
    (_htype : allowed_types.contains f.type = false) :
    validate_image_outcome f = ValidationOutcome.sizeExceeded := by
  simp [validate_image_outcome, hsize]

/-- C10 witness: a 6 MiB GIF — oversize and of a disallowed type — is
reported as a size violation. -/
theorem size_check_precedes_type_check_witness :
    validate_image_outcome bigBadFile = ValidationOutcome.sizeExceeded :=
  size_check_precedes_type_check bigBadFile (by decide) (by decide)

/-- C4: whatever happens to the individual image uploads of one save —
any of the main, gallery, variation, edition or laser uploads may fail,
by validation rejection (such as a 6 MiB PNG) or by a storage fault,
since the remote oracle `r` is arbitrary — a save whose required fields
are present and whose database insert does not fault always goes
through: the record is inserted, every asset field holds exactly the
result of its own upload step (so a failed upload's field is absent,
`none`), and the gallery keeps exactly the successful uploads. -/
theorem upload_failures_do_not_abort_save
    (r : Remote) (table : List DbRow) (newId : String) (now : Nat)
    (inp : SaveInput)
    (hname : inp.product_name ≠ "")
    (hprice : inp.regular_price ≠ 0) :
    ∃ recd : ProductRecord,
      save_handler r none true table newId now inp =
        SaveOutcome.saved recd
          (table ++ [{ id := newId, created_at := now, record := recd }]) ∧
      recd.main_image = (main_upload_result r inp).1 ∧
      recd.gallery_images = (gallery_upload_result r inp).1 ∧
      recd.variations =
        (if inp.product_type = "Variable Product" then
          some (variations_upload_result r inp).1 else none) ∧
      recd.deep_customization =
        (if inp.product_type = "Cricket Bat (Deep Customization)" then
          some (deep_upload_result r inp).1 else none) ∧
      recd.product_name = inp.product_name := by
  have hreq : ¬ (inp.product_name = "" ∨ inp.regular_price = 0) :=
    not_or.mpr ⟨hname, hprice⟩
  simp only [save_handler, hreq, save_product_to_supabase, if_false]
  exact ⟨_, rfl,
    by simp only [mk_product_data, main_upload_result],
    by simp only [mk_product_data, gallery_upload_result, main_upload_result],
    by simp only [mk_product_data, variations_upload_result, gallery_upload_result,
      main_upload_result],
    by simp only [mk_product_data, deep_upload_result, variations_upload_result,
      gallery_upload_result, main_upload_result],
    by simp only [mk_product_data]⟩

/-- C4 witness: submitting a simple product with a 6 MiB PNG as main
image (upload fails) and a gallery of one valid image and one oversize
disallowed-type image (that upload fails too) still creates the record:
the main-image field is the failed upload's `none` and the gallery keeps
exactly the one successful upload. -/
theorem upload_failures_witness :
    (main_upload_result r0 uploadInput).1 = none ∧
    (gallery_upload_result r0 uploadInput).1.length = 1 ∧
    (∃ recd : ProductRecord,
      save_handler r0 none true [] "id-1" 7 uploadInput =
        SaveOutcome.saved recd
          ([] ++ [{ id := "id-1", created_at := 7, record := recd }]) ∧
      recd.main_image = (main_upload_result r0 uploadInput).1 ∧
      recd.gallery_images = (gallery_upload_result r0 uploadInput).1 ∧
      recd.variations =
        (if uploadInput.product_type = "Variable Product" then
          some (variations_upload_result r0 uploadInput).1 else none) ∧
      recd.deep_customization =
        (if uploadInput.product_type = "Cricket Bat (Deep Customization)" then
          some (deep_upload_result r0 uploadInput).1 else none) ∧
      recd.product_name = uploadInput.product_name) :=
  ⟨by decide, by decide,
    upload_failures_do_not_abort_save r0 [] "id-1" 7 uploadInput
      (by decide) (by decide)⟩

/-- C9 counterexample: a bat-type record saved with the customization
checkbox off carries the bat discriminant but an empty (falsy) payload,
and the Excel export of the catalog containing it writes only the
"Products" sheet — no second sheet, although a record with the
`deep_customization` discriminant exists. -/
theorem bat_sheet_omitted_counterexample :
    batEmptyRecord.product_type = "Cricket Bat (Deep Customization)" ∧
    save_handler r0 none true [] "id-9" 3 batEmptyInput =
      SaveOutcome.saved batEmptyRecord
        [{ id := "id-9", created_at := 3, record := batEmptyRecord }] ∧
    excel_sheet_names [batEmptyRecord] = ["Products"] := by
  refine ⟨rfl, by decide, by decide⟩

/-- Entry selected by the spec-side row builder for one record: it is
dropped exactly when the record lacks the bat discriminant or its payload
is not a populated dict. -/
lemma bat_spec_entry_eq_none_iff (p : ProductRecord) :
    (if p.product_type = "Cricket Bat (Deep Customization)" then
        match p.deep_customization with
        | some (.filled d) => some (mkBatRow p d)
        | _ => none
      else none) = none ↔
    ¬ (p.product_type = "Cricket Bat (Deep Customization)" ∧
        deepTruthy p.deep_customization = true) := by
  by_cases h : p.product_type = "Cricket Bat (Deep Customization)"
  · cases hd : p.deep_customization with
    | none => simp [h, hd, deepTruthy]
    | some dd => cases dd <;> simp [h, hd, deepTruthy]
  · simp [h]

/-- The rows the export builds agree with the spec-side row builder. -/
lemma bat_data_eq_spec (products : List ProductRecord) :
    bat_data products = bat_rows_spec products := by
  unfold bat_data bat_products bat_rows_spec
  rw [List.filterMap_filter]
  congr 1
  funext p
  by_cases h : p.product_type = "Cricket Bat (Deep Customization)" <;> simp [h]

/-- The second sheet has a row exactly when some record has the bat
discriminant together with a populated payload. -/
lemma bat_data_ne_nil_iff (products : List ProductRecord) :
    bat_data products ≠ [] ↔
      ∃ p ∈ products, p.product_type = "Cricket Bat (Deep Customization)" ∧
        deepTruthy p.deep_customization = true := by
  rw [bat_data_eq_spec, Ne]
  unfold bat_rows_spec
  rw [List.filterMap_eq_nil_iff]
  push_neg
  refine exists_congr fun p => and_congr_right fun _hp => ?_
  rw [Ne, bat_spec_entry_eq_none_iff, not_not]

/-- C9 amended: the "Bat Customization" sheet is present exactly when
some record has the bat discriminant and a non-empty customization
payload, and its rows are exactly those the spec prescribes: one per such
record, with name, SKU, edition heading, grains, grade, the laser flag as
Yes/No and the laser price. -/
theorem bat_sheet_characterization (products : List ProductRecord) :
    bat_data products = bat_rows_spec products ∧
    (("Bat Customization" ∈ excel_sheet_names products) ↔
      ∃ p ∈ products, p.product_type = "Cricket Bat (Deep Customization)" ∧
        deepTruthy p.deep_customization = true) := by
  refine ⟨bat_data_eq_spec products, ?_⟩
  rw [← bat_data_ne_nil_iff]
  unfold excel_sheet_names
  by_cases hA : bat_products products = []
  · have hB : bat_data products = [] := by unfold bat_data; rw [hA]; rfl
    simp [hA, hB]
  · by_cases hB : bat_data products = []
    · simp [hA, hB]
    · simp [hA, hB]
